import Mathlib

/-! Shallow embedding of `src/bluescan/br_scan.py` (BR/EDR inquiry scanner).

Pure decoding functions are translated directly from the Python source;
the stateful parts (the inquiry session's `scanned_dev` list, the HCI
request/response exchange of `scan_lmp_feature`) are modelled by explicit
state passing over a record of controller responses.  Wire bytes are `Nat`
values in `[0, 256)`; Python exceptions (IndexError, struct.error,
KeyError, NameError) are modelled as explicit outcome constructors. -/

-- ## Class of Device decoding: `major_dev_clses` (lines 28-40) and `pp_cod` (lines 267-318)

/-- The fixed major-device-class enumeration table `major_dev_clses`
(br_scan.py lines 28-40).  A Python dict lookup on a missing key raises
KeyError, modelled here by `none`. -/
def major_dev_clses : Nat → Option String
  | 0b00000 => some "Miscellaneous"
  | 0b00001 => some "Computer"
  | 0b00010 => some "Phone"
  | 0b00011 => some "Lan/Network Access Point"
  | 0b00100 => some "Audio/Video"
  | 0b00101 => some "Peripheral (HID)"
  | 0b00110 => some "Imaging"
  | 0b00111 => some "Wearable"
  | 0b01000 => some "Toy"
  | 0b01001 => some "Health"
  | 0b11111 => some "Uncategorized"
  | _ => none

/-- The fields printed by a successful run of `pp_cod` (lines 274-315):
the raw service-class bits `bin(cod>>13)`, the nine service-class /
discoverability flags (truthiness of `(cod >> k) & 1`), and the 5-bit
major device class together with its table name. -/
structure CodDecoded where
  service_cls_raw : Nat
  information : Bool
  telephony : Bool
  audio : Bool
  object_transfer : Bool
  capturing : Bool
  rendering : Bool
  networking : Bool
  positioning : Bool
  limited_discoverable_mode : Bool
  major_dev_cls : Nat
  major_dev_cls_name : String
deriving DecidableEq, Repr

/-- Outcome of `pp_cod`: early return with a warning for a non-format-#1
CoD (lines 270-272), an uncaught KeyError from the
`major_dev_clses[major_dev_cls]` lookup (line 315), or a completed
decode. -/
inductive CodOutcome where
  | invalid
  | keyError
  | ok (d : CodDecoded)
deriving DecidableEq, Repr

/-- `pp_cod` (br_scan.py lines 267-318).  Validates the format bits, then
extracts the service-class flags via the inline lambdas of lines 275-283,
and finally looks the 5-bit major device class up in `major_dev_clses`
(line 315); a code absent from the table raises KeyError before anything
of line 315 is printed.  `pp_minor_dev_cls` (line 398) is a `pass` stub
and contributes nothing.  The decoded fields are split into
`cod_decoded_fields`; `pp_cod` itself does the validation and the table
lookup. -/
def cod_decoded_fields (cod : Nat) (name : String) : CodDecoded :=
  { service_cls_raw := cod >>> 13,
    information := (cod >>> 23) &&& 1 != 0,
    telephony := (cod >>> 22) &&& 1 != 0,
    audio := (cod >>> 21) &&& 1 != 0,
    object_transfer := (cod >>> 20) &&& 1 != 0,
    capturing := (cod >>> 19) &&& 1 != 0,
    rendering := (cod >>> 18) &&& 1 != 0,
    networking := (cod >>> 17) &&& 1 != 0,
    positioning := (cod >>> 16) &&& 1 != 0,
    limited_discoverable_mode := (cod >>> 13) &&& 1 != 0,
    major_dev_cls := (cod >>> 8) &&& 0x001F,
    major_dev_cls_name := name }

def pp_cod (cod : Nat) : CodOutcome :=
  if cod > 0xFFFFFF ∨ cod &&& 0x000003 ≠ 0 then CodOutcome.invalid
  else
    match major_dev_clses ((cod >>> 8) &&& 0x001F) with
    | none => CodOutcome.keyError
    | some name => CodOutcome.ok (cod_decoded_fields cod name)

/-- The major-device-class name `pp_cod` reports for a CoD, when it
completes. -/
def cod_major_name (cod : Nat) : Option String :=
  match pp_cod cod with
  | CodOutcome.ok d => some d.major_dev_cls_name
  | _ => none

/-- The Rendering service-class flag (bit 18) `pp_cod` reports for a CoD,
when it completes. -/
def cod_rendering_flag (cod : Nat) : Option Bool :=
  match pp_cod cod with
  | CodOutcome.ok d => some d.rendering
  | _ => none

-- ## Little-endian byte assembly and signed bytes

/-- Python `int.from_bytes(bs, byteorder='little')` (unsigned). -/
def int_from_bytes_le (bs : List Nat) : Nat :=
  bs.foldr (fun b acc => b + 256 * acc) 0

/-- A signed 8-bit wire byte, as produced by the struct format code `b`. -/
def signed_byte (b : Nat) : Int :=
  if b < 128 then (b : Int) else (b : Int) - 256

-- ## EIR TLV walker: `pp_ext_inquiry_rsp` (lines 321-396)

/-- One decoded EIR element: `data_type = data[0]` and the payload
`data[1:]`, where `data = ext_inq_rsp[1:1+length]` (lines 334-336). -/
structure EirElement where
  gapType : Nat
  payload : List Nat
deriving DecidableEq, Repr

/-- How the walk of lines 333-396 ends: the loop guard sees a zero length
byte (normal termination); an IndexError is raised, either by the guard
`ext_inq_rsp[0]` on an empty buffer or by `data[0]` on an empty slice; or
a UnicodeDecodeError is raised by `data[1:].decode()` at line 386 when a
shortened/complete-local-name element's payload is not valid UTF-8. -/
inductive WalkStatus where
  | terminated
  | indexError
  | unicodeDecodeError
deriving DecidableEq, Repr

/-- The GAP assigned number for the TX power level data type, imported by
br_scan.py from the (external) `gap_data` module. -/
def TX_POWER_LEVEL : Nat := 0x0A

/-- The GAP assigned number for the shortened local name data type
(imported from the external `gap_data` module). -/
def SHORTENED_LOCAL_NAME : Nat := 0x08

/-- The GAP assigned number for the complete local name data type
(imported from the external `gap_data` module). -/
def COMPLETE_LOCAL_NAME : Nat := 0x09

/-- A UTF-8 continuation byte, `0x80..0xBF`. -/
def utf8_cont (c : Nat) : Bool := decide (0x80 ≤ c ∧ c ≤ 0xBF)

/-- Whether strict UTF-8 decoding of a byte sequence succeeds — the check
Python's `bytes.decode()` (default codec, strict errors) performs at line
386.  Follows the UTF-8 byte patterns CPython accepts: ASCII; two-byte
leads `0xC2..0xDF`; three-byte leads `0xE0..0xEF` with the restricted
second byte excluding overlong forms (`0xE0`) and surrogates (`0xED`);
four-byte leads `0xF0..0xF4` with the restricted second byte excluding
overlong forms (`0xF0`) and code points above U+10FFFF (`0xF4`).  Lead
bytes `0x80..0xC1` and `0xF5..0xFF` are always invalid. -/
def utf8_decodable : List Nat → Bool
  | [] => true
  | b :: rest =>
    if b ≤ 0x7F then utf8_decodable rest
    else if 0xC2 ≤ b ∧ b ≤ 0xDF then
      match rest with
      | c1 :: rest1 => utf8_cont c1 && utf8_decodable rest1
      | [] => false
    else if 0xE0 ≤ b ∧ b ≤ 0xEF then
      match rest with
      | c1 :: c2 :: rest2 =>
        (if b = 0xE0 then decide (0xA0 ≤ c1 ∧ c1 ≤ 0xBF)
         else if b = 0xED then decide (0x80 ≤ c1 ∧ c1 ≤ 0x9F)
         else utf8_cont c1) && utf8_cont c2 && utf8_decodable rest2
      | _ => false
    else if 0xF0 ≤ b ∧ b ≤ 0xF4 then
      match rest with
      | c1 :: c2 :: c3 :: rest3 =>
        (if b = 0xF0 then decide (0x90 ≤ c1 ∧ c1 ≤ 0xBF)
         else if b = 0xF4 then decide (0x80 ≤ c1 ∧ c1 ≤ 0x8F)
         else utf8_cont c1) && utf8_cont c2 && utf8_cont c3 &&
          utf8_decodable rest3
      | _ => false
    else false

/-- The value the TX-power branch of the walker displays (line 388):
`int.from_bytes(data[1:], byteorder='little')` with no `signed=True`
flag, so the byte is read unsigned. -/
def tx_power_level_displayed (data : List Nat) : Nat :=
  int_from_bytes_le (data.drop 1)

/-- The element-extraction loop of `pp_ext_inquiry_rsp` (lines 333-337)
together with the one branch-body exit of lines 340-395: the
shortened/complete-local-name branch evaluates `data[1:].decode()` at
line 386, which raises UnicodeDecodeError when the payload is not valid
UTF-8, stopping the walk there (the element being processed when the
error fires is reported together with the error status, since the cursor
of line 337 had already advanced).  All other branch bodies only print:
the UUID-list branches validate with `continue` and catch their KeyError
(line 353), the TX-power branch only reads bytes, and the unknown-type
branch catches KeyError at line 393; none of them moves the cursor.  The
explicit fuel argument makes the recursion structural; each iteration
consumes `1 + length ≥ 2` octets, so fuel `buf.length + 1` (used by
`walkElems` below) can never run out and the fuel-zero branch is
unreachable from `walkElems`. -/
def walkElemsGo : Nat → List Nat → List EirElement × WalkStatus
  | 0, _ => ([], WalkStatus.indexError)
  | _ + 1, [] => ([], WalkStatus.indexError)
  | fuel + 1, b :: rest =>
    if b = 0 then ([], WalkStatus.terminated)
    else
      match rest.take b with
      | [] => ([], WalkStatus.indexError)
      | t :: payload =>
        if (t = SHORTENED_LOCAL_NAME ∨ t = COMPLETE_LOCAL_NAME) ∧
            utf8_decodable payload = false then
          ([⟨t, payload⟩], WalkStatus.unicodeDecodeError)
        else
          let r := walkElemsGo fuel (rest.drop b)
          (⟨t, payload⟩ :: r.1, r.2)

/-- The EIR walk of `pp_ext_inquiry_rsp` on a buffer: the sequence of
elements extracted before the loop stops, and how it stops.  The initial
`ext_inq_rsp[0] == 0` early return of lines 327-329 coincides with the
loop guard and needs no separate case. -/
def walkElems (buf : List Nat) : List EirElement × WalkStatus :=
  walkElemsGo (buf.length + 1) buf

/-- A 240-octet buffer whose single declared element length (239) makes
the element consume the buffer exactly, leaving the loop guard to index
an empty slice. -/
def eirOverrunExample : List Nat := 239 :: 9 :: List.replicate 238 7

/-- The exception the walker raises when the first declared element
length reaches to or past the end of the buffer, as a function of the
remainder `rest` after that length byte: `data[0]` on an empty slice
raises IndexError; a truncated local-name element with a non-UTF-8
payload raises UnicodeDecodeError at line 386 before the guard re-runs;
any other truncated element is processed, after which the loop guard
raises IndexError on the emptied buffer. -/
def truncated_elem_status : List Nat → WalkStatus
  | [] => WalkStatus.indexError
  | t :: payload =>
    if (t = SHORTENED_LOCAL_NAME ∨ t = COMPLETE_LOCAL_NAME) ∧
        utf8_decodable payload = false then
      WalkStatus.unicodeDecodeError
    else WalkStatus.indexError

/-- The walk of lines 333-337 as a big-step relation on the immutable
buffer: `EirWalk buf es s` holds when one pass over `buf` extracts the
element sequence `es` and stops with status `s`.  The buffer is never
written to (Python `bytes` are immutable and line 337 only rebinds the
local name to a fresh slice), so the relation is over the buffer value
alone. -/
inductive EirWalk : List Nat → List EirElement → WalkStatus → Prop where
  | nilBuf : EirWalk [] [] WalkStatus.indexError
  | zeroTerm (rest : List Nat) : EirWalk (0 :: rest) [] WalkStatus.terminated
  | emptyData (b : Nat) (rest : List Nat) (hb : b ≠ 0) (hd : rest.take b = []) :
      EirWalk (b :: rest) [] WalkStatus.indexError
  | cons (b : Nat) (rest : List Nat) (t : Nat) (payload : List Nat)
      (es : List EirElement) (s : WalkStatus) (hb : b ≠ 0)
      (hd : rest.take b = t :: payload) (htl : EirWalk (rest.drop b) es s) :
      EirWalk (b :: rest) (⟨t, payload⟩ :: es) s

-- ## Inquiry result decoders: `pp_inquiry_result` and variants (lines 157-252)

/-- The fields of one decoded inquiry result, shared by the three event
variants.  `rssi` is present only in the with-RSSI and extended variants,
`eir` only in the extended variant. -/
structure InquiryRecord where
  bd_addr : String
  page_scan_repetition_mode : Nat
  reserved : Nat
  cod : Nat
  clk_offset : Nat
  rssi : Option Int := none
  eir : Option (List Nat) := none
deriving DecidableEq, Repr

/-- How one event is handled: an uncaught IndexError / struct.error
(`decodeError`), the `Num_Responses != 1` log-and-return (`skipped`), the
silent dedup return (`deduped`), the unknown-event-code warning of line
65 (`unknownLogged`), or a fully decoded, displayed and stored record. -/
inductive HandlerOut where
  | decodeError
  | skipped
  | deduped
  | unknownLogged
  | recorded (r : InquiryRecord)
deriving DecidableEq, Repr

/-- One uppercase hex digit, for `'%02X' % b`. -/
def hex_digit_upper (n : Nat) : Char :=
  if n < 10 then Char.ofNat (48 + n) else Char.ofNat (55 + n)

/-- Python `'%02X' % b` for a wire byte `b < 256`. -/
def byte_hex (b : Nat) : String :=
  String.mk [hex_digit_upper (b / 16 % 16), hex_digit_upper (b % 16)]

/-- Line 168: `':'.join(['%02X' % b for b in bd_addr[::-1]])` — the wire
(little-endian) address bytes reversed to big-endian and rendered as
colon-separated uppercase hex. -/
def format_bd_addr (bs : List Nat) : String :=
  String.intercalate ":" (bs.reverse.map byte_hex)

/-- `pp_inquiry_result` (lines 157-186).  `params[0]` on an empty buffer
raises IndexError, and `struct.unpack('<6sBH3sH', params[1:])` raises
struct.error unless `params[1:]` is exactly 6+1+2+3+2 = 14 bytes; both
are uncaught (`decodeError`).  A `Num_Responses != 1` event is logged and
dropped.  The formatted address is checked against `scanned_dev` (line
169) before anything is printed; a hit returns with no display and no
storage.  Otherwise the record is printed and the address appended. -/
def pp_inquiry_result (scanned_dev : List String) (params : List Nat) :
    List String × HandlerOut :=
  match params with
  | [] => (scanned_dev, HandlerOut.decodeError)
  | num_rsp :: rest =>
    if num_rsp ≠ 1 then (scanned_dev, HandlerOut.skipped)
    else if rest.length ≠ 14 then (scanned_dev, HandlerOut.decodeError)
    else
      let bd_addr := format_bd_addr (rest.take 6)
      if bd_addr ∈ scanned_dev then (scanned_dev, HandlerOut.deduped)
      else
        (scanned_dev ++ [bd_addr],
         HandlerOut.recorded
           { bd_addr := bd_addr,
             page_scan_repetition_mode := rest.getD 6 0,
             reserved := int_from_bytes_le ((rest.drop 7).take 2),
             cod := int_from_bytes_le ((rest.drop 9).take 3),
             clk_offset := int_from_bytes_le ((rest.drop 12).take 2) })

/-- `pp_inquiry_result_with_rssi` (lines 189-218), struct format
`'<6sBB3sHb'` (14 bytes after the count byte): one reserved byte and a
trailing signed RSSI byte. -/
def pp_inquiry_result_with_rssi (scanned_dev : List String) (params : List Nat) :
    List String × HandlerOut :=
  match params with
  | [] => (scanned_dev, HandlerOut.decodeError)
  | num_rsp :: rest =>
    if num_rsp ≠ 1 then (scanned_dev, HandlerOut.skipped)
    else if rest.length ≠ 14 then (scanned_dev, HandlerOut.decodeError)
    else
      let bd_addr := format_bd_addr (rest.take 6)
      if bd_addr ∈ scanned_dev then (scanned_dev, HandlerOut.deduped)
      else
        (scanned_dev ++ [bd_addr],
         HandlerOut.recorded
           { bd_addr := bd_addr,
             page_scan_repetition_mode := rest.getD 6 0,
             reserved := rest.getD 7 0,
             cod := int_from_bytes_le ((rest.drop 8).take 3),
             clk_offset := int_from_bytes_le ((rest.drop 11).take 2),
             rssi := some (signed_byte (rest.getD 13 0)) })

/-- `pp_extended_inquiry_result` (lines 221-252), struct format
`'<6sBB3sHb240s'` (254 bytes after the count byte): the with-RSSI layout
followed by the 240-octet EIR block. -/
def pp_extended_inquiry_result (scanned_dev : List String) (params : List Nat) :
    List String × HandlerOut :=
  match params with
  | [] => (scanned_dev, HandlerOut.decodeError)
  | num_rsp :: rest =>
    if num_rsp ≠ 1 then (scanned_dev, HandlerOut.skipped)
    else if rest.length ≠ 254 then (scanned_dev, HandlerOut.decodeError)
    else
      let bd_addr := format_bd_addr (rest.take 6)
      if bd_addr ∈ scanned_dev then (scanned_dev, HandlerOut.deduped)
      else
        (scanned_dev ++ [bd_addr],
         HandlerOut.recorded
           { bd_addr := bd_addr,
             page_scan_repetition_mode := rest.getD 6 0,
             reserved := rest.getD 7 0,
             cod := int_from_bytes_le ((rest.drop 8).take 3),
             clk_offset := int_from_bytes_le ((rest.drop 11).take 2),
             rssi := some (signed_byte (rest.getD 13 0)),
             eir := some ((rest.drop 14).take 240) })

/-- HCI event code of HCI_Inquiry_Result (Bluetooth Core Spec; imported
by br_scan.py from the external `bthci.events` module). -/
def HCI_INQUIRY_RESULT_EVT : Nat := 0x02

/-- HCI event code of HCI_Inquiry_Result_with_RSSI. -/
def HCI_INQUIRY_RESULT_WITH_RSSI_EVT : Nat := 0x22

/-- HCI event code of HCI_Extended_Inquiry_Result. -/
def HCI_EXTENDED_INQUIRY_RESULT_EVT : Nat := 0x2F

/-- `inquiry_result_handler` (lines 52-65): dispatch on `result[0]` with
parameters `result[2:]`; an event code other than the three recognized
ones is logged and discarded.  `result[0]` on an empty buffer raises
IndexError. -/
def inquiry_result_handler (scanned_dev : List String) (result : List Nat) :
    List String × HandlerOut :=
  match result with
  | [] => (scanned_dev, HandlerOut.decodeError)
  | event_code :: _ =>
    let params := result.drop 2
    if event_code = HCI_INQUIRY_RESULT_EVT then
      pp_inquiry_result scanned_dev params
    else if event_code = HCI_INQUIRY_RESULT_WITH_RSSI_EVT then
      pp_inquiry_result_with_rssi scanned_dev params
    else if event_code = HCI_EXTENDED_INQUIRY_RESULT_EVT then
      pp_extended_inquiry_result scanned_dev params
    else (scanned_dev, HandlerOut.unknownLogged)

/-- The inquiry session's event loop (lines 52-68): events are processed
one at a time in arrival order against the shared `scanned_dev` list.  A
`decodeError` is an exception the handler does not catch; the `try` of
lines 67-92 catches only `HciRuntimeError` and `KeyboardInterrupt`, so
the error propagates and no further event of the stream is processed
(final component `true` marks the aborted session). -/
def run_inquiry_session (scanned_dev : List String) :
    List (List Nat) → List String × List InquiryRecord × Bool
  | [] => (scanned_dev, [], false)
  | evt :: rest =>
    let r := inquiry_result_handler scanned_dev evt
    match r.2 with
    | HandlerOut.decodeError => (r.1, [], true)
    | HandlerOut.recorded rec =>
      let t := run_inquiry_session r.1 rest
      (t.1, rec :: t.2.1, t.2.2)
    | _ => run_inquiry_session r.1 rest

-- ## Feature-page flow: `scan_lmp_feature` (lines 97-154)

/-- One HCI request issued by `scan_lmp_feature`. -/
inductive HciRequest where
  | createConnection (paddr : String)
  | readRemoteVersion (handle : Nat)
  | readRemoteSupportedFeatures (handle : Nat)
  | readRemoteExtendedFeatures (handle : Nat) (page : Nat)
  | disconnect (handle : Nat)
deriving DecidableEq, Repr

/-- How `scan_lmp_feature` terminates: `sys.exit(1)`, the uncaught
NameError raised while formatting the error log of lines 123-125 (which
reads `read_remote_ext_features_complete` before that name is bound at
line 138), or the normal fall-through return after line 154. -/
inductive ScanOutcome where
  | exitFailure
  | nameError
  | completed
deriving DecidableEq, Repr

/-- Controller status code `ControllerErrorCodes.SUCCESS`. -/
def SUCCESS : Nat := 0x00

/-- The connection-complete event consumed at line 99. -/
structure ConnectionComplete where
  status : Nat
  conn_handle : Nat
deriving DecidableEq, Repr

/-- The read-remote-version-information-complete event (line 108); the
printed version/manufacturer fields go to external lookup tables and do
not influence control flow. -/
structure VersionComplete where
  status : Nat
deriving DecidableEq, Repr

/-- The read-remote-supported-features-complete event (line 121) with its
8-byte base LMP feature bitmap. -/
structure FeaturesComplete where
  status : Nat
  lmp_features : List Nat
deriving DecidableEq, Repr

/-- A read-remote-extended-features-complete event (lines 138, 148). -/
structure ExtFeaturesComplete where
  status : Nat
  max_page_num : Nat
deriving DecidableEq, Repr

/-- The remote controller's responses, one per request kind; extended
feature responses are indexed by the requested page number. -/
structure RemoteDevice where
  connComplete : ConnectionComplete
  versionComplete : VersionComplete
  featuresComplete : FeaturesComplete
  extFeaturesComplete : Nat → ExtFeaturesComplete

/-- `scan_lmp_feature` (lines 97-154), as the sequence of HCI requests it
issues against a given device plus its terminal outcome.

Line-by-line notes on the modelled control flow:
* line 101: connection failure logs and calls `sys.exit(1)`;
* line 110: version-read failure logs and calls `sys.exit(1)` with no
  disconnect;
* line 122: base-features failure evaluates a log message that reads
  `read_remote_ext_features_complete.status`, a name first bound at line
  138, so a NameError is raised before the `hci.disconnect` of line 126;
* line 133: Python parses `not True if C else False` as
  `(not True) if C else False`, a conditional expression equal to `False`
  for every truth value of `C = (lmp_features[7] >> 7) & 0x01`, so the
  `sys.exit(1)` of line 134 is unreachable and the flow always proceeds
  to the extended-features reads;
* lines 139-144: a page-0 failure logs, disconnects and exits;
* lines 147-152: per-page failures only log; the loop always completes;
* line 154: the normal path disconnects and returns. -/
def scan_lmp_feature (dev : RemoteDevice) (paddr : String) :
    List HciRequest × ScanOutcome :=
  let conn := dev.connComplete
  let reqs0 := [HciRequest.createConnection paddr]
  if conn.status ≠ SUCCESS then (reqs0, ScanOutcome.exitFailure)
  else
    let reqs1 := reqs0 ++ [HciRequest.readRemoteVersion conn.conn_handle]
    if dev.versionComplete.status ≠ SUCCESS then (reqs1, ScanOutcome.exitFailure)
    else
      let reqs2 := reqs1 ++ [HciRequest.readRemoteSupportedFeatures conn.conn_handle]
      let feat := dev.featuresComplete
      if feat.status ≠ SUCCESS then (reqs2, ScanOutcome.nameError)
      else
        let ext_bit := (feat.lmp_features.getD 7 0 >>> 7) &&& 0x01
        let dead_guard : Bool := if ext_bit ≠ 0 then !true else false
        if dead_guard then (reqs2, ScanOutcome.exitFailure)
        else
          let reqs3 := reqs2 ++ [HciRequest.readRemoteExtendedFeatures conn.conn_handle 0]
          let ext0 := dev.extFeaturesComplete 0
          if ext0.status ≠ SUCCESS then
            (reqs3 ++ [HciRequest.disconnect conn.conn_handle], ScanOutcome.exitFailure)
          else
            let pageReqs := (List.range ext0.max_page_num).map
              (fun i => HciRequest.readRemoteExtendedFeatures conn.conn_handle (i + 1))
            (reqs3 ++ pageReqs ++ [HciRequest.disconnect conn.conn_handle],
             ScanOutcome.completed)

/-- A device whose base-features read succeeds with the
extended-features-available bit (bit 7 of `lmp_features[7]`) clear, and
whose extended-features reads all succeed reporting `max_page_num = 0`. -/
def devExtBitUnset : RemoteDevice :=
  { connComplete := { status := 0x00, conn_handle := 0x0B },
    versionComplete := { status := 0x00 },
    featuresComplete := { status := 0x00, lmp_features := [0, 0, 0, 0, 0, 0, 0, 0] },
    extFeaturesComplete := fun _ => { status := 0x00, max_page_num := 0 } }

/-- A device that connects successfully but answers the base-features
read with a non-success status (0x01). -/
def devFeaturesReadFails : RemoteDevice :=
  { connComplete := { status := 0x00, conn_handle := 0x0B },
    versionComplete := { status := 0x00 },
    featuresComplete := { status := 0x01, lmp_features := [] },
    extFeaturesComplete := fun _ => { status := 0x00, max_page_num := 0 } }

/-- A device that connects successfully but answers the version read with
a non-success status (0x01). -/
def devVersionReadFails : RemoteDevice :=
  { connComplete := { status := 0x00, conn_handle := 0x0B },
    versionComplete := { status := 0x01 },
    featuresComplete := { status := 0x00, lmp_features := [0, 0, 0, 0, 0, 0, 0, 0] },
    extFeaturesComplete := fun _ => { status := 0x00, max_page_num := 0 } }

-- ## Concrete example inputs used by witnesses and counterexamples

/-- Parameters of a basic inquiry-result event: `Num_Responses = 1`,
wire-order address `FF EE DD CC BB AA` (i.e. `AA:BB:CC:DD:EE:FF`),
scan-repeat-mode 0x01, reserved 0x0000, CoD bytes `0C 02 5A`
(little-endian 0x5A020C), clock offset 0x0000. -/
def inquiryParamsExample : List Nat :=
  [1, 0xFF, 0xEE, 0xDD, 0xCC, 0xBB, 0xAA, 0x01, 0x00, 0x00, 0x0C, 0x02, 0x5A, 0x00, 0x00]

/-- A truncated HCI_Inquiry_Result event buffer: event code 0x02,
parameter-length byte, then only the `Num_Responses = 1` byte — the
fixed 14-byte layout that should follow is missing. -/
def shortInquiryEvent : List Nat := [0x02, 0x01, 0x01]

/-- A complete HCI_Inquiry_Result event buffer carrying
`inquiryParamsExample`. -/
def goodInquiryEvent : List Nat := 0x02 :: 0x0F :: inquiryParamsExample

-- ## Theorems

-- ### Feature-page flow (C1, C2)

/-- C1: the claim says that when the base-features read succeeds with the
extended-features-available bit (bit 7 of byte 7) unset, the flow reports
base features only and goes straight to disconnect without any
read_remote_extended_features request.  On the code this is false: the
guard of line 133 is a conditional expression that is always False, so
the flow issues the page-0 extended-features request (and then the page
loop and disconnect) even though the bit is clear.  This theorem
evaluates the embedded flow at such a device. -/
theorem scan_lmp_feature_requests_ext_features_when_bit_unset :
    scan_lmp_feature devExtBitUnset "AA:BB:CC:DD:EE:FF" =
      ([HciRequest.createConnection "AA:BB:CC:DD:EE:FF",
        HciRequest.readRemoteVersion 0x0B,
        HciRequest.readRemoteSupportedFeatures 0x0B,
        HciRequest.readRemoteExtendedFeatures 0x0B 0,
        HciRequest.disconnect 0x0B], ScanOutcome.completed) := by
  rfl

/-- C2: the claim says every exit path reached after a successful
connection issues a disconnect.  On the code this is false on two paths:
a base-features read failure raises a NameError inside the error-log
expression of lines 123-125 before reaching the `hci.disconnect` of line
126, and a version-read failure calls `sys.exit(1)` at line 112 with no
disconnect at all.  This theorem evaluates the embedded flow on both
devices: neither request trace contains a disconnect. -/
theorem scan_lmp_feature_no_disconnect_on_failure_paths :
    scan_lmp_feature devFeaturesReadFails "AA:BB:CC:DD:EE:FF" =
      ([HciRequest.createConnection "AA:BB:CC:DD:EE:FF",
        HciRequest.readRemoteVersion 0x0B,
        HciRequest.readRemoteSupportedFeatures 0x0B], ScanOutcome.nameError) ∧
    scan_lmp_feature devVersionReadFails "AA:BB:CC:DD:EE:FF" =
      ([HciRequest.createConnection "AA:BB:CC:DD:EE:FF",
        HciRequest.readRemoteVersion 0x0B], ScanOutcome.exitFailure) := by
  exact ⟨rfl, rfl⟩

-- ### Class of Device (C4, C5, C9)

/-- C9: for every CoD whose format bits (bits 0-1) are not `00`, `pp_cod`
emits a warning and returns Invalid without decoding any service-class,
major-class or minor-class field and without crashing. -/
theorem pp_cod_invalid_format (cod : Nat) (h : cod &&& 0x000003 ≠ 0) :
    pp_cod cod = CodOutcome.invalid := by
  unfold pp_cod
  rw [if_pos (Or.inr h)]

/-- Witness for `pp_cod_invalid_format` at CoD 0x5A020D (format bits 01). -/
theorem pp_cod_invalid_format_witness : pp_cod 0x5A020D = CodOutcome.invalid :=
  pp_cod_invalid_format 0x5A020D (by decide)

/-- C4 counterexample: CoD 0x0A00 has format bits `00` and major device
class code 0b01010, which is absent from `major_dev_clses`, and `pp_cod`
raises KeyError on it — it does not complete non-fatally as the claim
states. -/
theorem pp_cod_unknown_major_key_error :
    0x0A00 &&& 0x000003 = 0 ∧ (0x0A00 >>> 8) &&& 0x001F = 0b01010 ∧
    pp_cod 0x0A00 = CodOutcome.keyError := by
  decide

/-- C4 (amended): for a 24-bit CoD with format bits `00`, `pp_cod`
completes exactly when the 5-bit major device class code is in the fixed
`major_dev_clses` table; a code outside the table (0b01010 through
0b11110) raises KeyError at the table lookup instead of being handled
non-fatally. -/
theorem pp_cod_total_iff_major_known (cod : Nat) (h1 : cod ≤ 0xFFFFFF)
    (h2 : cod &&& 0x000003 = 0) :
    (pp_cod cod = CodOutcome.keyError ↔
      major_dev_clses ((cod >>> 8) &&& 0x001F) = none) ∧
    (∀ name, major_dev_clses ((cod >>> 8) &&& 0x001F) = some name →
      pp_cod cod = CodOutcome.ok (cod_decoded_fields cod name)) := by
  have hneg : ¬(cod > 0xFFFFFF ∨ cod &&& 0x000003 ≠ 0) := by
    push_neg
    exact ⟨by omega, h2⟩
  cases h : major_dev_clses ((cod >>> 8) &&& 0x001F) with
  | none =>
    constructor
    · simp [pp_cod, hneg, h]
    · intro name hname
      exact absurd hname (by simp)
  | some name =>
    constructor
    · simp [pp_cod, hneg, h]
    · intro name2 hname2
      rw [Option.some_inj] at hname2
      subst hname2
      simp [pp_cod, hneg, h]

/-- Witness for `pp_cod_total_iff_major_known` at CoD 0x000200 (major
class 0b00010, present in the table). -/
theorem pp_cod_total_iff_major_known_witness :
    (pp_cod 0x200 = CodOutcome.keyError ↔
      major_dev_clses ((0x200 >>> 8) &&& 0x001F) = none) ∧
    (∀ name, major_dev_clses ((0x200 >>> 8) &&& 0x001F) = some name →
      pp_cod 0x200 = CodOutcome.ok (cod_decoded_fields 0x200 name)) :=
  pp_cod_total_iff_major_known 0x200 (by decide) (by decide)

/-- C5 counterexample: for CoD 0x5A020C the decoder reports major device
class "Phone", not "Audio/Video", and reports the Rendering flag (bit 18)
unset, contradicting the claimed scenario. -/
theorem cod_5A020C_not_audio_video :
    cod_major_name 0x5A020C = some "Phone" ∧
    cod_major_name 0x5A020C ≠ some "Audio/Video" ∧
    cod_rendering_flag 0x5A020C = some false := by
  decide

/-- C5 (amended): for CoD 0x5A020C (format bits 00) the decoder reports
major device class "Phone" (5-bit field 0b00010 at bits 8-12) with the
Rendering flag (bit 18) unset; the set service-class flags are Telephony
(bit 22), Object Transfer (bit 20), Capturing (bit 19) and Networking
(bit 17). -/
theorem cod_5A020C_decodes_phone :
    pp_cod 0x5A020C = CodOutcome.ok
      { service_cls_raw := 0x2D0, information := false, telephony := true,
        audio := false, object_transfer := true, capturing := true,
        rendering := false, networking := true, positioning := false,
        limited_discoverable_mode := false, major_dev_cls := 0b00010,
        major_dev_cls_name := "Phone" } := by
  decide

-- ### TX power level (C8)

/-- C8: the claim says the TX-power payload byte is decoded as a signed
8-bit dBm value (0xF4 reported as -12 dBm).  On the code this is false:
line 388 uses `int.from_bytes(data[1:], byteorder='little')` without
`signed=True`, so the displayed value for payload byte 0xF4 is 244; a
signed read of the same byte would have given -12. -/
theorem tx_power_unsigned_eval :
    tx_power_level_displayed [TX_POWER_LEVEL, 0xF4] = 244 ∧
    signed_byte 0xF4 = -12 := by
  decide

-- ### EIR TLV walker (C3, C10)

-- Helper: with enough fuel the walk produces at most `buf.length / 2`
-- elements, since each loop iteration consumes at least two octets.
theorem walkElemsGo_length_le (fuel : Nat) :
    ∀ buf : List Nat, buf.length < fuel →
      2 * (walkElemsGo fuel buf).1.length ≤ buf.length := by
  induction fuel with
  | zero => intro buf h; exact absurd h (Nat.not_lt_zero _)
  | succ fuel ih =>
    intro buf h
    match buf with
    | [] => simp [walkElemsGo]
    | b :: rest =>
      by_cases hb : b = 0
      · simp [walkElemsGo, hb]
      · cases htk : rest.take b with
        | nil => simp [walkElemsGo, hb, htk]
        | cons t payload =>
          have hrest : rest ≠ [] := by
            intro hr
            rw [hr] at htk
            simp at htk
          have hb1 : 1 ≤ b := Nat.one_le_iff_ne_zero.mpr hb
          have hlen1 : 1 ≤ rest.length := by
            cases rest with
            | nil => exact absurd rfl hrest
            | cons x xs => simp
          have hdroplen : (rest.drop b).length = rest.length - b :=
        List.length_drop b rest
          have hfuel : (rest.drop b).length < fuel := by
            have hl : (b :: rest).length < fuel + 1 := h
            simp only [List.length_cons] at hl
            omega
          have hih := ih (rest.drop b) hfuel
          by_cases hname : (t = SHORTENED_LOCAL_NAME ∨ t = COMPLETE_LOCAL_NAME) ∧
              utf8_decodable payload = false
          · have hres : walkElemsGo (fuel + 1) (b :: rest) =
                ([⟨t, payload⟩], WalkStatus.unicodeDecodeError) := by
              simp [walkElemsGo, hb, htk, hname]
            rw [hres]
            simp only [List.length_cons, List.length_nil]
            omega
          · have hres : walkElemsGo (fuel + 1) (b :: rest) =
                (⟨t, payload⟩ :: (walkElemsGo fuel (rest.drop b)).1,
                 (walkElemsGo fuel (rest.drop b)).2) := by
              simp [walkElemsGo, hb, htk, hname]
            rw [hres]
            simp only [List.length_cons]
            omega

-- Helper: when the first declared element length reaches to or past the
-- end of the buffer, the walk raises the exception described by
-- `truncated_elem_status`: IndexError from `data[0]` on an empty slice,
-- UnicodeDecodeError from the local-name decode of the truncated
-- element, or IndexError from the loop guard on the emptied buffer.
theorem walkElemsGo_overrun (fuel b : Nat) (rest : List Nat) (hb : b ≠ 0)
    (hr : rest.length ≤ b) (hf : 1 ≤ fuel) :
    (walkElemsGo (fuel + 1) (b :: rest)).2 = truncated_elem_status rest := by
  cases rest with
  | nil => simp [walkElemsGo, hb, truncated_elem_status]
  | cons t payload =>
    have htake : (t :: payload).take b = t :: payload :=
      List.take_of_length_le hr
    have hdrop : (t :: payload).drop b = [] := List.drop_of_length_le hr
    by_cases hname : (t = SHORTENED_LOCAL_NAME ∨ t = COMPLETE_LOCAL_NAME) ∧
        utf8_decodable payload = false
    · simp [walkElemsGo, hb, htake, hname, truncated_elem_status]
    · obtain ⟨fuel2, rfl⟩ : ∃ fuel2, fuel = fuel2 + 1 :=
        ⟨fuel - 1, by omega⟩
      simp [walkElemsGo, hb, htake, hdrop, hname, truncated_elem_status]

set_option maxRecDepth 8000 in
/-- C3 counterexample: a concrete 240-octet EIR buffer on which the
walker does not stop non-fatally: its single element (declared length
239) consumes the buffer exactly, the element is still produced, and
the loop guard then raises IndexError on the empty remainder. -/
theorem walk_eir_overrun_raises_index_error :
    eirOverrunExample.length = 240 ∧
    walkElems eirOverrunExample =
      ([{ gapType := 9, payload := List.replicate 238 7 }],
       WalkStatus.indexError) := by
  exact ⟨rfl, rfl⟩

/-- C3 (amended): on every 240-octet (indeed every) EIR buffer the walk
terminates, producing at most `length / 2` elements (the elements decoded
before the stopping point are produced); but when a declared element
length would read up to or past the end of the buffer the walker does not
stop non-fatally: it raises the uncaught exception given by
`truncated_elem_status` — UnicodeDecodeError when the truncated element
is a shortened/complete local name whose payload is not valid UTF-8
(line 386), and IndexError otherwise (`data[0]` on an empty slice, or
the loop guard on the emptied buffer). -/
theorem walk_eir_terminates_with_overrun_error (buf : List Nat) :
    2 * (walkElems buf).1.length ≤ buf.length ∧
    (∀ b rest, buf = b :: rest → b ≠ 0 → rest.length ≤ b →
      (walkElems buf).2 = truncated_elem_status rest ∧
      (walkElems buf).2 ≠ WalkStatus.terminated) := by
  constructor
  · exact walkElemsGo_length_le _ buf (Nat.lt_succ_self _)
  · rintro b rest rfl hb hr
    have hstat : (walkElems (b :: rest)).2 = truncated_elem_status rest := by
      show (walkElemsGo ((b :: rest).length + 1) (b :: rest)).2 = _
      have hlen : (b :: rest).length + 1 = (rest.length + 1) + 1 := by simp
      rw [hlen]
      exact walkElemsGo_overrun (rest.length + 1) b rest hb hr (by omega)
    refine ⟨hstat, ?_⟩
    rw [hstat]
    cases rest with
    | nil => simp [truncated_elem_status]
    | cons t payload =>
      by_cases hname : (t = SHORTENED_LOCAL_NAME ∨ t = COMPLETE_LOCAL_NAME) ∧
          utf8_decodable payload = false
      · simp [truncated_elem_status, hname]
      · simp [truncated_elem_status, hname]

/-- Witness for `walk_eir_terminates_with_overrun_error`, at the
two-octet buffer `[5, 1]` whose declared length 5 overruns the end
(IndexError branch), and at the buffer `[5, 9, 0xFF]` whose truncated
element is a complete local name with the invalid UTF-8 payload `0xFF`
(UnicodeDecodeError branch). -/
theorem walk_eir_terminates_with_overrun_error_witness :
    ((walkElems [5, 1]).2 = truncated_elem_status [1] ∧
      (walkElems [5, 1]).2 ≠ WalkStatus.terminated) ∧
    ((walkElems [5, 9, 0xFF]).2 = truncated_elem_status [9, 0xFF] ∧
      (walkElems [5, 9, 0xFF]).2 ≠ WalkStatus.terminated) :=
  ⟨(walk_eir_terminates_with_overrun_error [5, 1]).2 5 [1] rfl
      (by decide) (by decide),
   (walk_eir_terminates_with_overrun_error [5, 9, 0xFF]).2 5 [9, 0xFF] rfl
      (by decide) (by decide)⟩

/-- C10: re-walking the same immutable 240-octet buffer from scratch
yields the identical element sequence (and the identical stop status):
the big-step walk relation `EirWalk` is deterministic in the buffer, so
the walker — which never mutates its input — produces the same
(gap_type, payload) sequence on every pass. -/
theorem eir_walk_deterministic (buf : List Nat) (es es2 : List EirElement)
    (s s2 : WalkStatus) (_hlen : buf.length = 240)
    (h : EirWalk buf es s) (h2 : EirWalk buf es2 s2) : es = es2 ∧ s = s2 := by
  clear _hlen
  induction h generalizing es2 s2 with
  | nilBuf =>
    cases h2 with
    | nilBuf => exact ⟨rfl, rfl⟩
  | zeroTerm rest =>
    cases h2 with
    | zeroTerm => exact ⟨rfl, rfl⟩
    | emptyData _ _ hb2 _ => exact absurd rfl hb2
    | cons _ _ _ _ _ _ hb2 _ _ => exact absurd rfl hb2
  | emptyData b rest hb hd =>
    cases h2 with
    | zeroTerm => exact absurd rfl hb
    | emptyData => exact ⟨rfl, rfl⟩
    | cons _ _ t2 payload2 _ _ hb2 hd2 _ =>
      rw [hd] at hd2
      exact absurd hd2.symm (List.cons_ne_nil _ _)
  | cons b rest t payload es s hb hd htl ih =>
    cases h2 with
    | zeroTerm => exact absurd rfl hb
    | emptyData _ _ hb2 hd2 =>
      rw [hd] at hd2
      exact absurd hd2 (List.cons_ne_nil _ _)
    | cons _ _ t2 payload2 es2 s2 hb2 hd2 htl2 =>
      rw [hd] at hd2
      injection hd2 with ht hp
      subst ht
      subst hp
      obtain ⟨rfl, rfl⟩ := ih _ _ htl2
      exact ⟨rfl, rfl⟩

/-- Witness for `eir_walk_deterministic`: two walks of the all-zero
240-octet buffer, each stopping immediately at the zero terminator. -/
theorem eir_walk_deterministic_witness :
    ([] : List EirElement) = [] ∧
    WalkStatus.terminated = WalkStatus.terminated :=
  eir_walk_deterministic (0 :: List.replicate 239 0) [] []
    WalkStatus.terminated WalkStatus.terminated
    (by rw [List.length_cons, List.length_replicate])
    (EirWalk.zeroTerm _) (EirWalk.zeroTerm _)

-- ### Inquiry session: dedup (C6) and short-buffer handling (C7)

/-- C6: within one session, a decoded inquiry-result record whose
byte-reversed big-endian formatted address is already in `scanned_dev` is
dropped with no display and no storage, so processing the same event
twice yields exactly one record; the seen-set stays duplicate-free, and
grows only by appending a fresh address at its end (insertion order).
Stated for the basic-variant decoder `pp_inquiry_result`: the three
conjuncts give (1) preservation of `Nodup`, (2) the append-at-end shape
of the state update, (3) that a second processing of an event just
recorded is silently deduplicated, leaving the state unchanged. -/
theorem inquiry_dedup_unique (scanned_dev : List String) (params : List Nat) :
    (scanned_dev.Nodup → ((pp_inquiry_result scanned_dev params).1).Nodup) ∧
    ((pp_inquiry_result scanned_dev params).1 = scanned_dev ∨
      ∃ a, a ∉ scanned_dev ∧
        (pp_inquiry_result scanned_dev params).1 = scanned_dev ++ [a]) ∧
    (∀ st1 r, pp_inquiry_result scanned_dev params = (st1, HandlerOut.recorded r) →
      pp_inquiry_result st1 params = (st1, HandlerOut.deduped)) := by
  rcases params with _ | ⟨n, rest⟩
  · refine ⟨fun h => h, Or.inl rfl, ?_⟩
    intro st1 r h
    simp [pp_inquiry_result] at h
  · by_cases h1 : n = 1
    · subst h1
      by_cases h2 : rest.length = 14
      · by_cases h3 : format_bd_addr (rest.take 6) ∈ scanned_dev
        · have hres : pp_inquiry_result scanned_dev (1 :: rest) =
              (scanned_dev, HandlerOut.deduped) := by
            simp [pp_inquiry_result, h2, h3]
          refine ⟨?_, ?_, ?_⟩
          · rw [hres]; exact fun h => h
          · rw [hres]; exact Or.inl rfl
          · intro st1 r h
            rw [hres] at h
            simp at h
        · have hres : pp_inquiry_result scanned_dev (1 :: rest) =
              (scanned_dev ++ [format_bd_addr (rest.take 6)],
               HandlerOut.recorded
                 { bd_addr := format_bd_addr (rest.take 6),
                   page_scan_repetition_mode := rest.getD 6 0,
                   reserved := int_from_bytes_le ((rest.drop 7).take 2),
                   cod := int_from_bytes_le ((rest.drop 9).take 3),
                   clk_offset := int_from_bytes_le ((rest.drop 12).take 2) }) := by
            simp [pp_inquiry_result, h2, h3]
          refine ⟨?_, ?_, ?_⟩
          · intro hnd
            rw [hres]
            simp [List.nodup_append, hnd, h3]
          · rw [hres]
            exact Or.inr ⟨_, h3, rfl⟩
          · intro st1 r h
            rw [hres] at h
            have hst1 : st1 = scanned_dev ++ [format_bd_addr (rest.take 6)] :=
              (congrArg Prod.fst h).symm
            subst hst1
            simp [pp_inquiry_result, h2]
      · have hres : pp_inquiry_result scanned_dev (1 :: rest) =
            (scanned_dev, HandlerOut.decodeError) := by
          simp [pp_inquiry_result, h2]
        refine ⟨?_, ?_, ?_⟩
        · rw [hres]; exact fun h => h
        · rw [hres]; exact Or.inl rfl
        · intro st1 r h
          rw [hres] at h
          simp at h
    · have hres : pp_inquiry_result scanned_dev (n :: rest) =
          (scanned_dev, HandlerOut.skipped) := by
        simp [pp_inquiry_result, h1]
      refine ⟨?_, ?_, ?_⟩
      · rw [hres]; exact fun h => h
      · rw [hres]; exact Or.inl rfl
      · intro st1 r h
        rw [hres] at h
        simp at h

/-- Witness for `inquiry_dedup_unique`: the example event records address
AA:BB:CC:DD:EE:FF on an empty session, and processing the identical
event again is silently dropped with the seen-set unchanged. -/
theorem inquiry_dedup_unique_witness :
    pp_inquiry_result ["AA:BB:CC:DD:EE:FF"] inquiryParamsExample =
      (["AA:BB:CC:DD:EE:FF"], HandlerOut.deduped) :=
  (inquiry_dedup_unique [] inquiryParamsExample).2.2 ["AA:BB:CC:DD:EE:FF"]
    { bd_addr := "AA:BB:CC:DD:EE:FF", page_scan_repetition_mode := 1,
      reserved := 0, cod := 0x5A020C, clk_offset := 0 } (by decide)

/-- C7 counterexample: the claim says a short event buffer is a failure
scoped to that one event and the session continues with later events.
On the code the struct.error is uncaught, so the session aborts: the
well-formed event that follows the short one is never processed (alone
it would have produced one record). -/
theorem short_event_aborts_session_example :
    run_inquiry_session [] [shortInquiryEvent, goodInquiryEvent] = ([], [], true) ∧
    (run_inquiry_session [] [goodInquiryEvent]).2.1.length = 1 := by
  exact ⟨rfl, rfl⟩

/-- C7 (amended): a short event buffer is a hard decode failure, but it
is not scoped to that one event: the unpack error propagates out of the
handler (the session's exception handling catches only transport errors
and keyboard interrupts), so the session stops and processes none of the
subsequent events; state gathered so far is left as is. -/
theorem decode_error_stops_session (scanned_dev : List String)
    (evt : List Nat) (rest : List (List Nat))
    (h : (inquiry_result_handler scanned_dev evt).2 = HandlerOut.decodeError) :
    run_inquiry_session scanned_dev (evt :: rest) =
      ((inquiry_result_handler scanned_dev evt).1, [], true) := by
  simp [run_inquiry_session, h]

/-- Witness for `decode_error_stops_session`: a one-byte event buffer
aborts a session that still had an event queued. -/
theorem decode_error_stops_session_witness :
    run_inquiry_session [] [[0x02], goodInquiryEvent] = ([], [], true) :=
  decode_error_stops_session [] [0x02] [goodInquiryEvent] (by decide)
